import Mathlib

/-
Verification development for taxid2wgs.py (khyox/draftGenomes).

The script downloads NCBI WGS project fasta files for a taxid and merges
them into one fasta file, with a progress ledger (the ".tmp" file), a fixed
retry schedule, and a header normalizer.  The definitions below are a
shallow embedding of the script, translated clause by clause from the
source; the theorems settle the specification claims against them.
Source line numbers refer to src/taxid2wgs.py.
-/

/- Constants from taxid2wgs.py lines 23-26. -/

def RETRY_TIMES : List Nat := [0, 5, 15, 30, 60, 120]

def FSA_WGS_END : String := ".fsa_nt.gz"

/- The null device that fstfile and tmpfile are pointed at in
"just download" mode (line 215: fstfile = tmpfile = dev null). -/

def nullDevice : String := "/dev/null"

/-
Terminal conditions and their exit codes (every exit site of main).
A condition that has several exit sites carries the list of codes used:
  success            -> 0  (normal return, and exit(0) at line 206)
  ambiguousConfig    -> 2  (line 169: ledger exists, no relevant flag set)
  incompatibleState  -> 1  (line 164: resume, ledger nonempty, output missing)
                        3  (line 177: output exists but ledger missing)
  eofParse           -> 4  (line 325: empty / truncated decompressed file)
                        3  (line 352: EOFError inside the header-rewrite loop)
  retryExhaust       -> 5  (lines 263 and 309: retry schedule exhausted)
  userInterrupt      -> 9  (lines 255 and 297: KeyboardInterrupt)
  cleanupFail        -> 5  (line 387: could not remove the ledger at the end)
-/

inductive TerminalCond where
  | success
  | ambiguousConfig
  | incompatibleState
  | eofParse
  | retryExhaust
  | userInterrupt
  | cleanupFail
deriving DecidableEq

def exitCodesOf : TerminalCond → List Nat
  | TerminalCond.success => [0]
  | TerminalCond.ambiguousConfig => [2]
  | TerminalCond.incompatibleState => [1, 3]
  | TerminalCond.eofParse => [4, 3]
  | TerminalCond.retryExhaust => [5]
  | TerminalCond.userInterrupt => [9]
  | TerminalCond.cleanupFail => [5]

/- Unordered-pair test used to name the two exit-code collisions. -/

def samePair (a b x y : TerminalCond) : Prop :=
  (a = x ∧ b = y) ∨ (a = y ∧ b = x)

instance (a b x y : TerminalCond) : Decidable (samePair a b x y) := by
  unfold samePair
  infer_instance

/-
Startup reconciliation (lines 148-177).  The script inspects the ledger
(tmpfile) and the output fasta (fstfile) and either proceeds to the
network phase or exits.  The HTTPS discovery request (lines 192-196) and
every FTP connection come strictly after this block, so an exit here
happens before any network call.
-/

structure StartupEnv where
  force : Bool
  resume : Bool
  justDownload : Bool
  ledgerExists : Bool
  outputExists : Bool
  ledgerEntries : List String
deriving DecidableEq

inductive StartupOutcome where
  | proceed (parsed : List String) (removedLedger : Bool) (removedOutput : Bool)
  | exitWith (code : Nat)
deriving DecidableEq

def startup (env : StartupEnv) : StartupOutcome :=
  if env.ledgerExists then
    if env.force then StartupOutcome.proceed [] true false
    else if env.justDownload then StartupOutcome.proceed env.ledgerEntries false false
    else if env.resume then
      if !env.ledgerEntries.isEmpty && !env.outputExists then StartupOutcome.exitWith 1
      else StartupOutcome.proceed env.ledgerEntries false false
    else StartupOutcome.exitWith 2
  else if env.outputExists then
    if env.force then StartupOutcome.proceed [] false true
    else StartupOutcome.exitWith 3
  else StartupOutcome.proceed [] false false

/- The discovery request is issued exactly when startup proceeds. -/

def reachesDiscovery : StartupOutcome → Bool
  | StartupOutcome.proceed _ _ _ => true
  | StartupOutcome.exitWith _ => false

/-
Generic retry loop (lines 237-263 for the project listing; the per-file
loop at 272-309 has the same shape).  Each pass sleeps the scheduled
delay, runs the attempt, and either breaks on success, exits on
KeyboardInterrupt, or remembers the error and continues; the for-else
branch fires when the schedule is exhausted (exit 5, last error printed).
-/

inductive AttemptOutcome (ε : Type) where
  | ok
  | err (e : ε)
  | interrupt

inductive RetryResult (ε : Type) where
  | success
  | exhausted (lastError : Option ε)
  | interrupted

structure RetryTrace (ε : Type) where
  sleeps : List Nat
  attempts : Nat
  result : RetryResult ε

def retryAux {ε : Type} (outcome : Nat → AttemptOutcome ε) :
    List Nat → Nat → Option ε → RetryTrace ε
  | [], _, lastErr => ⟨[], 0, RetryResult.exhausted lastErr⟩
  | t :: rest, i, _ =>
    match outcome i with
    | AttemptOutcome.ok => ⟨[t], 1, RetryResult.success⟩
    | AttemptOutcome.interrupt => ⟨[t], 1, RetryResult.interrupted⟩
    | AttemptOutcome.err e =>
      let r := retryAux outcome rest (i + 1) (some e)
      ⟨t :: r.sleeps, r.attempts + 1, r.result⟩

def runRetry {ε : Type} (outcome : Nat → AttemptOutcome ε) : RetryTrace ε :=
  retryAux outcome RETRY_TIMES 0 none

/- Exit code attached to a fatal retry-loop result (exit 5 / exit 9). -/

def retryExitCode {ε : Type} : RetryResult ε → Option Nat
  | RetryResult.exhausted _ => some 5
  | RetryResult.interrupted => some 9
  | RetryResult.success => none

/-
Per-file retrieval loop with its filesystem effects (lines 266-309).
An attempt can end in four ways that matter on disk:
  ok                -> the file is (re)opened for writing, truncated,
                       and written completely;
  failMidStream     -> the file was truncated and left with a fragment
                       of the data when a transient fault hit;
  failNoWrite       -> the fault hit before the file was opened
                       (e.g. the reconnect at lines 280-283 failed);
  interruptMidStream-> KeyboardInterrupt: the fragment is removed and
                       the run exits 9 (lines 290-297).
Schedule exhaustion removes the fragment and exits 5 (lines 300-309).
Nothing is removed between a failed attempt and the next retry.
-/

inductive DlOutcome where
  | ok
  | failMidStream
  | failNoWrite
  | interruptMidStream

inductive DlEvent where
  | slept (t : Nat)
  | wroteIncomplete (f : String)
  | wroteComplete (f : String)
  | removed (f : String)
  | exited (code : Nat)
deriving DecidableEq

def downloadLoop (f : String) (outcome : Nat → DlOutcome) :
    List Nat → Nat → List DlEvent
  | [], _ => [DlEvent.removed f, DlEvent.exited 5]
  | t :: rest, i =>
    DlEvent.slept t ::
      (match outcome i with
       | DlOutcome.ok => [DlEvent.wroteComplete f]
       | DlOutcome.failMidStream =>
           DlEvent.wroteIncomplete f :: downloadLoop f outcome rest (i + 1)
       | DlOutcome.failNoWrite => downloadLoop f outcome rest (i + 1)
       | DlOutcome.interruptMidStream =>
           [DlEvent.wroteIncomplete f, DlEvent.removed f, DlEvent.exited 9])

def runDownloadLoop (f : String) (outcome : Nat → DlOutcome) : List DlEvent :=
  downloadLoop f outcome RETRY_TIMES 0

/- Disk state of one file as the event trace is replayed. -/

inductive FileState where
  | incomplete
  | complete
deriving DecidableEq

def applyEvent (f : String) (st : Option FileState) : DlEvent → Option FileState
  | DlEvent.wroteIncomplete g => if g = f then some FileState.incomplete else st
  | DlEvent.wroteComplete g => if g = f then some FileState.complete else st
  | DlEvent.removed g => if g = f then none else st
  | _ => st

def diskAfter (f : String) (init : Option FileState) : List DlEvent → Option FileState
  | [] => init
  | ev :: rest => diskAfter f (applyEvent f init ev) rest

def isIncompleteState : Option FileState → Bool
  | some FileState.incomplete => true
  | _ => false

/- Predicates reading the trace for the literal wording of claim C3:
after a mid-stream failure the fragment must be removed before the next
retry attempt (the next sleep) and before any fatal exit. -/

def removeComesFirst (f : String) : List DlEvent → Bool
  | [] => true
  | DlEvent.removed g :: rest => if g = f then true else removeComesFirst f rest
  | DlEvent.slept _ :: _ => false
  | DlEvent.exited _ :: _ => false
  | _ :: rest => removeComesFirst f rest

def removedBeforeNextAttempt (f : String) : List DlEvent → Bool
  | [] => true
  | DlEvent.wroteIncomplete g :: rest =>
    (if g = f then removeComesFirst f rest else true) && removedBeforeNextAttempt f rest
  | _ :: rest => removedBeforeNextAttempt f rest

def traceExit : List DlEvent → Option Nat
  | [] => none
  | DlEvent.exited c :: _ => some c
  | _ :: rest => traceExit rest

def isSleptEvent : DlEvent → Bool
  | DlEvent.slept _ => true
  | _ => false

def attemptCount (evs : List DlEvent) : Nat := evs.countP isSleptEvent

/-
Header normalizer (lines 314-352).  The decompressed file is read whole;
an empty file raises EOFError, caught and mapped to exit 4.  If the
project id occurs in the first 7 characters of the first line the file is
"new format" and is written out unchanged.  Otherwise the per-project
pattern  proj \d{5,8} \. \d \|  is searched in the first line with
re.search; a miss makes match None and match.group(1) raises an
AttributeError that no handler catches (Python dies with a traceback).
On a hit, a canonical header is written, and then EVERY line of the file
(the first line included) is written: lines not starting with the record
marker verbatim, marker lines re-parsed with the same pattern.
-/

inductive NormError where
  | emptyFile
  | headerMismatch
deriving DecidableEq

inductive FatalKind where
  | classifiedCorruption (code : Nat)
  | unhandledCrash
deriving DecidableEq

def NormError.fatality : NormError → FatalKind
  | NormError.emptyFile => FatalKind.classifiedCorruption 4
  | NormError.headerMismatch => FatalKind.unhandledCrash

/- Python substring test (the operator "in" on str), on char lists. -/

def listContainsSub (needle : List Char) : List Char → Bool
  | [] => needle.isEmpty
  | c :: rest => needle.isPrefixOf (c :: rest) || listContainsSub needle rest

/- Take exactly n decimal digits from the front of the list. -/

def takeDigits : Nat → List Char → Option (List Char × List Char)
  | 0, s => some ([], s)
  | _ + 1, [] => none
  | n + 1, c :: rest =>
    if c.isDigit then
      match takeDigits n rest with
      | some (ds, s2) => some (c :: ds, s2)
      | none => none
    else none

/- Match  \d{k} \. \d \|  and return (accession tail, description). -/

def matchAccTail (proj : List Char) (k : Nat) (s : List Char) :
    Option (List Char × List Char) :=
  match takeDigits k s with
  | none => none
  | some (ds, rest) =>
    match rest with
    | '.' :: d :: '|' :: tail =>
      if d.isDigit then some (proj ++ ds ++ ('.' :: [d]), tail) else none
    | _ => none

/- Match the pattern anchored at this position; the digit counter is
greedy with backtracking, so 8 digits are tried first, down to 5. -/

def matchProjHeaderAt (proj s : List Char) : Option (List Char × List Char) :=
  if proj.isPrefixOf s then
    let r := s.drop proj.length
    match matchAccTail proj 8 r with
    | some m => some m
    | none =>
      match matchAccTail proj 7 r with
      | some m => some m
      | none =>
        match matchAccTail proj 6 r with
        | some m => some m
        | none => matchAccTail proj 5 r
  else none

/- re.search: leftmost position with a match wins.  The trailing group
of the pattern takes everything to the end of the line, newline
included, so the raw description is simply the remaining characters. -/

def reSearchHeader (proj : List Char) : List Char → Option (List Char × List Char)
  | [] => matchProjHeaderAt proj []
  | c :: rest =>
    match matchProjHeaderAt proj (c :: rest) with
    | some m => some m
    | none => reSearchHeader proj rest

/- Python str.strip with no argument (ASCII whitespace suffices for the
inputs the script sees). -/

def pyWhitespace (c : Char) : Bool :=
  c == ' ' || c == '\t' || c == '\n' || c == '\r' || c == '\x0b' || c == '\x0c'

def pyStrip (s : List Char) : List Char :=
  ((s.dropWhile pyWhitespace).reverse.dropWhile pyWhitespace).reverse

/- The canonical header written by the script: marker, accession, one
space, stripped description, newline (lines 336 and 345-346). -/

def rewriteHeader (acc rawDesc : List Char) : List Char :=
  '>' :: (acc ++ (' ' :: (pyStrip rawDesc ++ ['\n'])))

/- One pass of the rewrite loop body (lines 338-346).  Lines produced by
readlines are never empty, so the empty case is unreachable; it is
mapped to the verbatim branch. -/

def normalizeOldLine (proj line : List Char) : Except NormError (List Char) :=
  match line with
  | '>' :: _ =>
    match reSearchHeader proj line with
    | some (acc, rawDesc) => Except.ok (rewriteHeader acc rawDesc)
    | none => Except.error NormError.headerMismatch
  | _ => Except.ok line

/- Whole-file normalization (lines 314-346).  The output is the list of
strings written to the fasta handle; a headerMismatch error models the
uncaught AttributeError (output already written before the crash is not
modeled, the run dies either way). -/

def normalizeFile (proj : List Char) (allLines : List (List Char)) :
    Except NormError (List (List Char)) :=
  match allLines with
  | [] => Except.error NormError.emptyFile
  | line1 :: rest =>
    if listContainsSub proj (line1.take 7) then Except.ok (line1 :: rest)
    else
      match reSearchHeader proj line1 with
      | none => Except.error NormError.headerMismatch
      | some (acc, rawDesc) =>
        match (line1 :: rest).mapM (normalizeOldLine proj) with
        | Except.error e => Except.error e
        | Except.ok outs => Except.ok (rewriteHeader acc rawDesc :: outs)

/- Per-file pipeline: the retrieval retry loop runs first; only when it
finishes without a fatal exit is the file decompressed and normalized
(or, in "just download" mode, left alone: line 312-313). -/

inductive FileResult where
  | fatalExit (code : Nat)
  | crashed
  | parsed (written : List (List Char))
  | downloadedOnly
deriving DecidableEq

def processFile (f : String) (outcome : Nat → DlOutcome) (justDownload : Bool)
    (proj : List Char) (contents : List (List Char)) : FileResult :=
  match traceExit (runDownloadLoop f outcome) with
  | some c => FileResult.fatalExit c
  | none =>
    if justDownload then FileResult.downloadedOnly
    else
      match normalizeFile proj contents with
      | Except.error NormError.emptyFile => FileResult.fatalExit 4
      | Except.error NormError.headerMismatch => FileResult.crashed
      | Except.ok outs => FileResult.parsed outs

/-
Per-project file selection (lines 148-150, 220-269).  "previous" is the
startup scan of local files ending in FSA_WGS_END.  In resume mode the
files whose names start with the project id are taken as the project's
complete file set and the FTP listing is skipped; otherwise the remote
listing is fetched and filtered by suffix.  A file is then actually
downloaded only when force is set or it is not on disk (line 268).
-/

structure ProjResult where
  usedTransfer : Bool
  toDownload : List String
  fetched : List String
deriving DecidableEq

/- Python str.startswith and str.endswith, as operations on the
character sequences of the two strings. -/

def strStartsWith (s pre : String) : Bool := pre.data.isPrefixOf s.data

def strEndsWith (s post : String) : Bool := post.data.isSuffixOf s.data

def processProject (resume force : Bool) (localFiles remoteListing : List String)
    (proj : String) : ProjResult :=
  let previous := localFiles.filter (fun f => strEndsWith f FSA_WGS_END)
  let downloaded := if resume then previous.filter (fun f => strStartsWith f proj) else []
  let toDownload :=
    if downloaded.isEmpty then remoteListing.filter (fun f => strEndsWith f FSA_WGS_END)
    else downloaded
  let fetched := toDownload.filter (fun f => force || !(localFiles.contains f))
  ⟨downloaded.isEmpty || !fetched.isEmpty, toDownload, fetched⟩

/-
Ledger writes (lines 214-216 and 362-363).  The loop appends one line
per completed project to the tmp handle and flushes immediately.  In
"just download" mode the handle was opened on the null device instead of
the real ledger file, so those bytes never reach the ledger on disk.
-/

structure LedgerOp where
  target : String
  entry : String
  flushed : Bool
deriving DecidableEq

def ledgerTarget (justDownload : Bool) (tmpfile : String) : String :=
  if justDownload then nullDevice else tmpfile

def runLedgerOps (justDownload : Bool) (tmpfile : String)
    (completed : List String) : List LedgerOp :=
  completed.map (fun proj => ⟨ledgerTarget justDownload tmpfile, proj, true⟩)

def ledgerFileLines (tmpfile : String) (ops : List LedgerOp) : List String :=
  (ops.filter (fun op => op.target == tmpfile)).map (fun op => op.entry ++ "\n")

/-
download_file (lines 43-62).  The call Thread with target bkg_download()
EVALUATES bkg_download() on the spot: the whole transfer runs in the
calling thread, returns None, and only then is a Thread with a None
target created and started.  The NOOP loop therefore begins only after
the transfer has already completed; a no-op thread dies at once, so at
most a bounded number of NOOPs follow, and none overlaps the transfer.
-/

inductive XferEvent where
  | transferStart
  | chunk
  | transferDone
  | threadStart
  | noop
deriving DecidableEq

def isTransferDone : XferEvent → Bool
  | XferEvent.transferDone => true
  | _ => false

def isNoop : XferEvent → Bool
  | XferEvent.noop => true
  | _ => false

def bkgDownloadEvents (nChunks : Nat) : List XferEvent :=
  XferEvent.transferStart ::
    (List.replicate nChunks XferEvent.chunk ++ [XferEvent.transferDone])

def downloadFileEvents (nChunks postNoops : Nat) : List XferEvent :=
  bkgDownloadEvents nChunks ++
    XferEvent.threadStart :: List.replicate postNoops XferEvent.noop

/- Concrete inputs used by the claims below. -/

def projABC : List Char := "ABC".data

def oldHeaderLine : List Char := "ABC00000001.1|Some description\n".data

def seqLineACGT : List Char := "ACGT\n".data

def canonicalHeaderLine : List Char := ">ABC00000001.1 Some description\n".data

def junkHeaderLine : List Char := ">corrupted data\n".data

/-
Theorems settling the claims.
-/

/-- C1 (counterexample): the claim that all seven terminal conditions
terminate with pairwise different exit codes is false — retry-schedule
exhaustion (lines 263, 309) and failure to remove the ledger after
success (line 387) both terminate with exit code 5. -/
theorem exit_codes_not_pairwise_distinct :
    ¬ (∀ c1 c2 : TerminalCond, c1 ≠ c2 →
        ∀ n, n ∈ exitCodesOf c1 → n ∉ exitCodesOf c2) :=
  fun h =>
    h TerminalCond.retryExhaust TerminalCond.cleanupFail (by decide)
      5 (by decide) (by decide)

/-- C1 (amended): any two distinct terminal conditions use disjoint exit
codes, except that retry exhaustion and ledger-cleanup failure share
code 5, and the startup output-without-ledger state and the in-parse
end-of-stream handler share code 3. -/
theorem exit_codes_distinct_outside_collisions (c1 c2 : TerminalCond)
    (h : c1 ≠ c2) :
    samePair c1 c2 TerminalCond.retryExhaust TerminalCond.cleanupFail ∨
    samePair c1 c2 TerminalCond.incompatibleState TerminalCond.eofParse ∨
    ∀ n, n ∈ exitCodesOf c1 → n ∉ exitCodesOf c2 := by
  cases c1 <;> cases c2 <;> first
    | exact absurd rfl h
    | decide

/-- C1 (witness): the amended statement applied to the pair success and
user interruption, whose codes 0 and 9 are indeed disjoint. -/
theorem exit_codes_distinct_witness :
    TerminalCond.success ≠ TerminalCond.userInterrupt ∧
    (samePair TerminalCond.success TerminalCond.userInterrupt
        TerminalCond.retryExhaust TerminalCond.cleanupFail ∨
     samePair TerminalCond.success TerminalCond.userInterrupt
        TerminalCond.incompatibleState TerminalCond.eofParse ∨
     ∀ n, n ∈ exitCodesOf TerminalCond.success →
        n ∉ exitCodesOf TerminalCond.userInterrupt) :=
  ⟨by decide,
   exit_codes_distinct_outside_collisions TerminalCond.success
     TerminalCond.userInterrupt (by decide)⟩

/-- C2 (counterexample): in just-download mode the ledger handle is
opened on the null device (line 215), so a project that completes
processing is never appended to the ledger file on disk: with tmpfile
WGS4taxid548681.tmp and completed project AAAA01 the ledger file gains
no line at all, refuting "appended ... exactly once" for that mode. -/
theorem download_mode_ledger_not_written :
    "AAAA01" ∈ ["AAAA01"] ∧
    (ledgerFileLines "WGS4taxid548681.tmp"
        (runLedgerOps true "WGS4taxid548681.tmp" ["AAAA01"])).count
      ("AAAA01" ++ "\n") = 0 := by
  constructor
  · decide
  · rfl

/-- C2 (amended): in the modes that write the real ledger (just-download
off), every completed project is appended as one line, in completion
order, and every append is flushed immediately; in just-download mode
every ledger write is redirected to the null device and the ledger file
on disk receives nothing. -/
theorem ledger_appended_once_per_completion (tmpfile : String)
    (completed : List String) (hn : tmpfile ≠ nullDevice) :
    ledgerFileLines tmpfile (runLedgerOps false tmpfile completed) =
      completed.map (fun p => p ++ "\n") ∧
    (runLedgerOps false tmpfile completed).all (fun op => op.flushed) = true ∧
    (runLedgerOps true tmpfile completed).filter
      (fun op => op.target == tmpfile) = [] := by
  refine ⟨?_, ?_, ?_⟩
  · induction completed with
    | nil => rfl
    | cons p rest ih =>
      simp only [runLedgerOps, ledgerFileLines, ledgerTarget, if_neg Bool.false_ne_true,
        List.map_cons, List.filter_cons] at ih ⊢
      simp [ih]
  · induction completed with
    | nil => rfl
    | cons p rest ih =>
      simp [runLedgerOps, List.all_cons]
  · have hbf : (nullDevice == tmpfile) = false := by
      simp [beq_eq_false_iff_ne]
      exact fun hh => hn hh.symm
    induction completed with
    | nil => rfl
    | cons p rest ih =>
      simpa [runLedgerOps, ledgerTarget, List.filter_cons, hbf] using ih

/-- C2 (witness): the amended statement at tmpfile WGS4taxid548681.tmp
with completed projects AAAA01 and BBBB01. -/
theorem ledger_appended_once_per_completion_witness :
    "WGS4taxid548681.tmp" ≠ nullDevice ∧
    (ledgerFileLines "WGS4taxid548681.tmp"
        (runLedgerOps false "WGS4taxid548681.tmp" ["AAAA01", "BBBB01"]) =
      ["AAAA01", "BBBB01"].map (fun p => p ++ "\n") ∧
    (runLedgerOps false "WGS4taxid548681.tmp" ["AAAA01", "BBBB01"]).all
      (fun op => op.flushed) = true ∧
    (runLedgerOps true "WGS4taxid548681.tmp" ["AAAA01", "BBBB01"]).filter
      (fun op => op.target == "WGS4taxid548681.tmp") = []) :=
  ⟨by decide,
   ledger_appended_once_per_completion "WGS4taxid548681.tmp"
     ["AAAA01", "BBBB01"] (by decide)⟩

/-- C3 (counterexample): when the first retrieval attempt fails
mid-stream and the second succeeds, the trace of the per-file loop is
sleep, incomplete write, sleep, complete write — the fragment left by
the failed attempt is not deleted before the next retry begins (the only
deletions in the loop are at KeyboardInterrupt, lines 293-296, and at
schedule exhaustion, lines 301-304). -/
theorem incomplete_file_not_removed_between_retries :
    removedBeforeNextAttempt "AAAA01.1.fsa_nt.gz"
      (runDownloadLoop "AAAA01.1.fsa_nt.gz"
        (fun i => if i = 0 then DlOutcome.failMidStream else DlOutcome.ok)) =
      false := by
  rfl

/-- C3 (amended): after a mid-stream transient failure the partial file
stays on disk until the next attempt truncates and rewrites it; it is
deleted before the fatal aborts (exhaustion and interrupt), so whatever
the attempt outcomes, when the per-file retrieval loop terminates the
file is never left in the partially-written state. -/
theorem download_loop_leaves_no_incomplete_file (f : String)
    (outcome : Nat → DlOutcome) (sched : List Nat) (i : Nat)
    (init : Option FileState) :
    isIncompleteState (diskAfter f init (downloadLoop f outcome sched i)) =
      false := by
  induction sched generalizing i init with
  | nil => simp [downloadLoop, diskAfter, applyEvent, isIncompleteState]
  | cons t rest ih =>
    cases h : outcome i with
    | ok => simp [downloadLoop, h, diskAfter, applyEvent, isIncompleteState]
    | failMidStream =>
      simpa [downloadLoop, h, diskAfter, applyEvent] using
        ih (i + 1) (some FileState.incomplete)
    | failNoWrite =>
      simpa [downloadLoop, h, diskAfter, applyEvent] using ih (i + 1) init
    | interruptMidStream =>
      simp [downloadLoop, h, diskAfter, applyEvent, isIncompleteState]

/-- C4: a retryable operation that fails on every attempt is tried
exactly once per schedule entry (6 attempts), the delays slept are
exactly the schedule 0, 5, 15, 30, 60, 120, the loop ends in exhaustion
reporting the error of the last attempt, and the run terminates with the
retry-exhaustion exit code 5. -/
theorem retry_exhaustion_runs_whole_schedule {ε : Type}
    (outcome : Nat → AttemptOutcome ε) (e : Nat → ε)
    (h : ∀ i, i < 6 → outcome i = AttemptOutcome.err (e i)) :
    (runRetry outcome).attempts = RETRY_TIMES.length ∧
    (runRetry outcome).sleeps = RETRY_TIMES ∧
    (runRetry outcome).result = RetryResult.exhausted (some (e 5)) ∧
    retryExitCode (runRetry outcome).result = some 5 := by
  have h0 := h 0 (by omega)
  have h1 := h 1 (by omega)
  have h2 := h 2 (by omega)
  have h3 := h 3 (by omega)
  have h4 := h 4 (by omega)
  have h5 := h 5 (by omega)
  simp [runRetry, RETRY_TIMES, retryAux, retryExitCode, h0, h1, h2, h3, h4, h5]

/-- C4 (witness): the schedule-exhaustion theorem applied to the
operation that fails on attempt i with error i. -/
theorem retry_exhaustion_runs_whole_schedule_witness :
    (runRetry (fun i => AttemptOutcome.err i)).attempts = RETRY_TIMES.length ∧
    (runRetry (fun i => AttemptOutcome.err i)).sleeps = RETRY_TIMES ∧
    (runRetry (fun i => AttemptOutcome.err i)).result =
      RetryResult.exhausted (some 5) ∧
    retryExitCode (runRetry (fun i => AttemptOutcome.err i)).result = some 5 :=
  retry_exhaustion_runs_whole_schedule (fun i => AttemptOutcome.err i)
    (fun i => i) (fun _ _ => rfl)

/-- C5 (counterexample): on the file whose first line is
ABC00000001.1|Some description followed by ACGT, the normalizer does not
write the canonical header — it copies both lines through unchanged,
because the collection id ABC occurs within the first 7 characters of
the first line and the file is therefore classified as new format
(line 328). -/
theorem old_format_example_not_normalized :
    normalizeFile projABC [oldHeaderLine, seqLineACGT] =
      Except.ok [oldHeaderLine, seqLineACGT] ∧
    [oldHeaderLine, seqLineACGT] ≠ [canonicalHeaderLine, seqLineACGT] := by
  constructor
  · rfl
  · decide

/-- C5 (amended): because the collection id ABC occurs within the first
7 characters of the header ABC00000001.1|Some description, the
normalizer classifies the file as already canonical and writes every
line out unchanged; no header is rewritten. -/
theorem old_format_example_passthrough :
    listContainsSub projABC (oldHeaderLine.take 7) = true ∧
    normalizeFile projABC [oldHeaderLine, seqLineACGT] =
      Except.ok [oldHeaderLine, seqLineACGT] := by
  constructor
  · rfl
  · rfl

/-- C6 (counterexample): a decompressed file whose header
">ABC00000001.1 Some description" does not match the per-collection
pipe pattern is not terminated on — the id ABC occurs within the first
7 characters, so the file is passed through unchanged with no fatal
error at all, refuting the claim as stated. -/
theorem unmatched_header_not_fatal :
    reSearchHeader projABC canonicalHeaderLine = none ∧
    normalizeFile projABC [canonicalHeaderLine, seqLineACGT] =
      Except.ok [canonicalHeaderLine, seqLineACGT] := by
  constructor
  · rfl
  · rfl

/-- C6 (amended): an empty decompressed file is fatal at once with the
classified corruption exit code 4; a non-empty file whose first line
neither contains the collection id in its first 7 characters nor
matches the pipe pattern kills the run at once via an unhandled parse
error (the AttributeError of match.group on None); neither error path
re-enters the retrieval retry loop — the file was downloaded in a
single attempt and is not retried. -/
theorem corruption_errors_fatal_without_retry (proj line1 : List Char)
    (rest : List (List Char)) (f : String)
    (h7 : listContainsSub proj (line1.take 7) = false)
    (hm : reSearchHeader proj line1 = none) :
    normalizeFile proj [] = Except.error NormError.emptyFile ∧
    NormError.fatality NormError.emptyFile = FatalKind.classifiedCorruption 4 ∧
    normalizeFile proj (line1 :: rest) = Except.error NormError.headerMismatch ∧
    NormError.fatality NormError.headerMismatch = FatalKind.unhandledCrash ∧
    processFile f (fun _ => DlOutcome.ok) false proj [] =
      FileResult.fatalExit 4 ∧
    processFile f (fun _ => DlOutcome.ok) false proj (line1 :: rest) =
      FileResult.crashed ∧
    attemptCount (runDownloadLoop f (fun _ => DlOutcome.ok)) = 1 := by
  have hnorm : normalizeFile proj (line1 :: rest) =
      Except.error NormError.headerMismatch := by
    simp [normalizeFile, h7, hm]
  have htrace : runDownloadLoop f (fun _ => DlOutcome.ok) =
      [DlEvent.slept 0, DlEvent.wroteComplete f] := by
    simp [runDownloadLoop, RETRY_TIMES, downloadLoop]
  refine ⟨rfl, rfl, hnorm, rfl, ?_, ?_, ?_⟩
  · simp [processFile, htrace, traceExit, normalizeFile]
  · simp [processFile, htrace, traceExit, hnorm]
  · simp [htrace, attemptCount, isSleptEvent]

/-- C6 (witness): the amended statement at collection id ABC, first line
">corrupted data", one sequence line, and file name x.fsa_nt.gz. -/
theorem corruption_errors_fatal_without_retry_witness :
    listContainsSub projABC (junkHeaderLine.take 7) = false ∧
    reSearchHeader projABC junkHeaderLine = none ∧
    (normalizeFile projABC [] = Except.error NormError.emptyFile ∧
    NormError.fatality NormError.emptyFile = FatalKind.classifiedCorruption 4 ∧
    normalizeFile projABC [junkHeaderLine, seqLineACGT] =
      Except.error NormError.headerMismatch ∧
    NormError.fatality NormError.headerMismatch = FatalKind.unhandledCrash ∧
    processFile "x.fsa_nt.gz" (fun _ => DlOutcome.ok) false projABC [] =
      FileResult.fatalExit 4 ∧
    processFile "x.fsa_nt.gz" (fun _ => DlOutcome.ok) false projABC
      [junkHeaderLine, seqLineACGT] = FileResult.crashed ∧
    attemptCount (runDownloadLoop "x.fsa_nt.gz" (fun _ => DlOutcome.ok)) = 1) :=
  ⟨rfl, rfl,
   corruption_errors_fatal_without_retry projABC junkHeaderLine
     [seqLineACGT] "x.fsa_nt.gz" rfl rfl⟩

/-- C7: when the ledger exists, the output fasta does not, and none of
force, resume or just-download is set, startup exits with the
configuration-conflict code 2 (line 169), and since the discovery
request and all transfers come only after this block, no network call
is made. -/
theorem conflict_exits_before_network (env : StartupEnv)
    (hl : env.ledgerExists = true) (_ho : env.outputExists = false)
    (hf : env.force = false) (hr : env.resume = false)
    (hd : env.justDownload = false) :
    startup env = StartupOutcome.exitWith 2 ∧
    reachesDiscovery (startup env) = false := by
  simp [startup, hl, hf, hr, hd, reachesDiscovery]

/-- C7 (witness): the startup theorem at the concrete environment with
only the ledger present and all flags off. -/
theorem conflict_exits_before_network_witness :
    startup ⟨false, false, false, true, false, ["AAAA01"]⟩ =
      StartupOutcome.exitWith 2 ∧
    reachesDiscovery (startup ⟨false, false, false, true, false, ["AAAA01"]⟩) =
      false :=
  conflict_exits_before_network ⟨false, false, false, true, false, ["AAAA01"]⟩
    rfl rfl rfl rfl rfl

/-- C8: in resume mode (force is off: the flags are mutually exclusive),
when at least one local file ending in .fsa_nt.gz starts with the
project id, the project opens no transfer connection, exactly the
prefix-matching local files become its file set, and none of them is
downloaded again — whatever extra files the remote listing holds. -/
theorem resume_uses_local_files_only (proj : String)
    (localFiles remoteListing : List String)
    (hne : (localFiles.filter (fun f => strEndsWith f FSA_WGS_END)).filter
        (fun f => strStartsWith f proj) ≠ []) :
    processProject true false localFiles remoteListing proj =
      ⟨false,
       (localFiles.filter (fun f => strEndsWith f FSA_WGS_END)).filter
         (fun f => strStartsWith f proj),
       []⟩ := by
  have hde : ((localFiles.filter (fun f => strEndsWith f FSA_WGS_END)).filter
      (fun f => strStartsWith f proj)).isEmpty = false := by
    cases hcase : (localFiles.filter (fun f => strEndsWith f FSA_WGS_END)).filter
        (fun f => strStartsWith f proj) with
    | nil => exact absurd hcase hne
    | cons a l => rfl
  have hfetched : (((localFiles.filter (fun f => strEndsWith f FSA_WGS_END)).filter
      (fun f => strStartsWith f proj)).filter
        (fun f => false || !(localFiles.contains f))) = [] := by
    rw [List.filter_eq_nil_iff]
    intro a ha
    have hmem : a ∈ localFiles :=
      List.mem_of_mem_filter (List.mem_of_mem_filter ha)
    simp [hmem]
  have key : processProject true false localFiles remoteListing proj =
      ⟨((localFiles.filter (fun f => strEndsWith f FSA_WGS_END)).filter
          (fun f => strStartsWith f proj)).isEmpty ||
        !((if ((localFiles.filter (fun f => strEndsWith f FSA_WGS_END)).filter
              (fun f => strStartsWith f proj)).isEmpty then
            remoteListing.filter (fun f => strEndsWith f FSA_WGS_END)
          else
            (localFiles.filter (fun f => strEndsWith f FSA_WGS_END)).filter
              (fun f => strStartsWith f proj)).filter
          (fun f => false || !(localFiles.contains f))).isEmpty,
       if ((localFiles.filter (fun f => strEndsWith f FSA_WGS_END)).filter
            (fun f => strStartsWith f proj)).isEmpty then
          remoteListing.filter (fun f => strEndsWith f FSA_WGS_END)
        else
          (localFiles.filter (fun f => strEndsWith f FSA_WGS_END)).filter
            (fun f => strStartsWith f proj),
       (if ((localFiles.filter (fun f => strEndsWith f FSA_WGS_END)).filter
            (fun f => strStartsWith f proj)).isEmpty then
          remoteListing.filter (fun f => strEndsWith f FSA_WGS_END)
        else
          (localFiles.filter (fun f => strEndsWith f FSA_WGS_END)).filter
            (fun f => strStartsWith f proj)).filter
         (fun f => false || !(localFiles.contains f))⟩ := rfl
  rw [key, hde]
  simp only [Bool.false_eq_true, if_false, hfetched, List.isEmpty_nil,
    Bool.not_true, Bool.or_false]

/-- C8 (witness): the resume theorem at project AAAA01 with one matching
local file and a remote listing that holds an extra file. -/
theorem resume_uses_local_files_only_witness :
    ((["AAAA01.1.fsa_nt.gz", "other.txt"].filter
        (fun f => strEndsWith f FSA_WGS_END)).filter
      (fun f => strStartsWith f "AAAA01") ≠ []) ∧
    processProject true false ["AAAA01.1.fsa_nt.gz", "other.txt"]
        ["AAAA01.1.fsa_nt.gz", "AAAA01.2.fsa_nt.gz"] "AAAA01" =
      ⟨false,
       (["AAAA01.1.fsa_nt.gz", "other.txt"].filter
          (fun f => strEndsWith f FSA_WGS_END)).filter
         (fun f => strStartsWith f "AAAA01"),
       []⟩ :=
  ⟨by decide,
   resume_uses_local_files_only "AAAA01" ["AAAA01.1.fsa_nt.gz", "other.txt"]
     ["AAAA01.1.fsa_nt.gz", "AAAA01.2.fsa_nt.gz"] (by decide)⟩

/-- C9: a file whose owning collection id occurs as a substring of the
first 7 characters of its first line is copied to the output verbatim,
every line unchanged (line 328-329). -/
theorem new_format_copied_verbatim (proj line1 : List Char)
    (rest : List (List Char))
    (h : listContainsSub proj (line1.take 7) = true) :
    normalizeFile proj (line1 :: rest) = Except.ok (line1 :: rest) := by
  simp [normalizeFile, h]

/-- C9 (witness): the pass-through theorem at collection id ABC and the
canonical two-line file. -/
theorem new_format_copied_verbatim_witness :
    listContainsSub projABC (canonicalHeaderLine.take 7) = true ∧
    normalizeFile projABC [canonicalHeaderLine, seqLineACGT] =
      Except.ok [canonicalHeaderLine, seqLineACGT] :=
  ⟨rfl, new_format_copied_verbatim projABC canonicalHeaderLine [seqLineACGT] rfl⟩

/-- C10: in download_file the argument of Thread target is the CALL
bkg_download(), so the entire transfer runs to completion in the calling
thread before the keepalive thread even starts: in every possible trace
no NOOP liveness signal occurs before the transfer-done event, while the
transfer-done event always occurs — contradicting the claim that the
liveness signaling runs concurrently with the data transfer. -/
theorem keepalive_only_after_transfer_completes (nChunks postNoops : Nat) :
    ((downloadFileEvents nChunks postNoops).takeWhile
        (fun e => !isTransferDone e)).any isNoop = false ∧
    (downloadFileEvents nChunks postNoops).any isTransferDone = true := by
  constructor
  · simp [downloadFileEvents, bkgDownloadEvents, List.takeWhile_cons,
      isTransferDone, isNoop]
  · simp [downloadFileEvents, bkgDownloadEvents, List.any_append,
      isTransferDone]
